import Mathlib

/-!
Shallow embedding of `src/slider/mySlider.js` (the `Slider` class and its
plugins).

The carousel's DOM state is reduced to what the navigation logic reads and
writes: each slide `<li>` carries either the class `slider__item` or
`slider__item--selected`, so the item list is modelled as a `List Bool`
(`true` = selected).  `querySelector('.slider__item--selected')` returns the
first matching node, modelled as the index of the first `true` flag.
Dispatched `CustomEvent("slide", {detail: {index}})` events are recorded in
an append-only log of their `index` payloads.  `setInterval`/`clearInterval`
are modelled by an allocator of fresh timer ids together with the list of
currently live timers.
-/

namespace MySlider

/-- Number of slides whose class is `slider__item--selected`. -/
def countSelected : List Bool → Nat
  | [] => 0
  | true :: l => countSelected l + 1
  | false :: l => countSelected l

/-- Index of the first slide with class `slider__item--selected`, if any:
the document-order search performed by
`querySelector('.slider__item--selected')` over the item list. -/
def querySelectorSelected : List Bool → Option Nat
  | [] => none
  | b :: l => if b then some 0 else (querySelectorSelected l).map (· + 1)

/-- Assignment `item.className = ...` on the node at position `i`
(out-of-range positions leave the list unchanged, matching that no node
exists there). -/
def setClass : List Bool → Nat → Bool → List Bool
  | [], _, _ => []
  | _ :: l, 0, b => b :: l
  | a :: l, i + 1, b => a :: setClass l i b

/-- State of one `Slider` instance: the selected-flags of
`this.items`, the log of dispatched `slide` events, the `this.timer` field,
the live interval timers, and the allocator for fresh timer ids. -/
structure Slider where
  items : List Bool
  events : List Int
  timer : Option Nat
  live : List Nat
  nextId : Nat
deriving Repr, DecidableEq

/-- Selected-flags produced by `render()`: the template marks the item for
image index 0 with `slider__item--selected` (`i===0`) and every other item
with `slider__item`. -/
def render (images : List String) : List Bool :=
  images.enum.map (fun p => p.1 == 0)

/-- Constructor `new Slider(id, opts)`: renders the items (first selected),
no timer yet (`this.timer` is `undefined`), no events dispatched. -/
def mkSlider (images : List String) : Slider :=
  { items := render images, events := [], timer := none, live := [], nextId := 0 }

/-- Method `getSelectedItem()`:
`this.container.querySelector('.slider__item--selected')`, `none` models the
`null` return when no node matches. -/
def getSelectedItem (s : Slider) : Option Nat :=
  querySelectorSelected s.items

/-- Method `getSelectedItemIndex()`:
`Array.from(this.items).indexOf(this.getSelectedItem())`.  The selected node
occurs in `items` at the position found by the query; `indexOf(null)` is
`-1`. -/
def getSelectedItemIndex (s : Slider) : Int :=
  match getSelectedItem s with
  | none => -1
  | some j => (j : Int)

/-- First half of `slidesTo`: `const selected = this.getSelectedItem(); if
(selected) { selected.className = 'slider__item'; }` — clear the class of the
currently selected item if there is one. -/
def deselectCurrent (items : List Bool) : List Bool :=
  match querySelectorSelected items with
  | some j => setClass items j false
  | none => items

/-- Second half of `slidesTo`: `const item = this.items[idx]; if (item) {
item.className = 'slider__item--selected'; }` — a NodeList has a node at
`idx` exactly when `0 ≤ idx < length`. -/
def selectTarget (items : List Bool) (idx : Int) : List Bool :=
  if 0 ≤ idx ∧ idx < (items.length : Int) then setClass items idx.toNat true
  else items

/-- Method `slidesTo(idx)`: deselect the current item, select the target item
if it exists, then unconditionally dispatch the `slide` event with
`detail = {index: idx}`. -/
def slidesTo (s : Slider) (idx : Int) : Slider :=
  { s with items := selectTarget (deselectCurrent s.items) idx,
           events := s.events ++ [idx] }

/-- JavaScript's `%` on integral Numbers: remainder truncated toward zero
(`-1 % 4 === -1`), which is `Int.tmod`.  (The source only evaluates it with a
nonzero divisor; JS `x % 0` would be `NaN`.) -/
def jsRem (a b : Int) : Int :=
  Int.tmod a b

/-- Method `slidesPrev()`:
`this.slidesTo((this.items.length + this.getSelectedItemIndex() - 1) % this.items.length)`. -/
def slidesPrev (s : Slider) : Slider :=
  slidesTo s (jsRem ((s.items.length : Int) + getSelectedItemIndex s - 1) (s.items.length : Int))

/-- Method `slidesNext()`:
`this.slidesTo((this.getSelectedItemIndex() + 1) % this.items.length)`. -/
def slidesNext (s : Slider) : Slider :=
  slidesTo s (jsRem (getSelectedItemIndex s + 1) (s.items.length : Int))

/-- `clearInterval(t)`: cancels the timer with id `t` if it is live;
`clearInterval(undefined)` (the initial value of `this.timer`) and clearing
an already-cancelled id are no-ops. -/
def clearInterval (live : List Nat) (t : Option Nat) : List Nat :=
  match t with
  | none => live
  | some id => live.filter (fun x => x != id)

/-- Method `stop()`: `clearInterval(this.timer)`.  Note the `this.timer`
field itself is not reset. -/
def stop (s : Slider) : Slider :=
  { s with live := clearInterval s.live s.timer }

/-- Method `start()`: first `this.stop()`, then
`this.timer = setInterval(() => { this.slidesNext(); }, this.cycle)` — a
fresh live timer whose id is stored in `this.timer`. -/
def start (s : Slider) : Slider :=
  let s1 := stop s
  { s1 with timer := some s1.nextId, live := s1.nextId :: s1.live, nextId := s1.nextId + 1 }

/-- One firing of the interval callback registered by `start()`:
`() => { this.slidesNext(); }`. -/
def tick (s : Slider) : Slider :=
  slidesNext s

/-- An operation on the autoplay timer: a `start()` or `stop()` call. -/
inductive TimerOp
  | startOp
  | stopOp
deriving Repr, DecidableEq

/-- Apply one timer operation. -/
def applyOp (s : Slider) : TimerOp → Slider
  | TimerOp.startOp => start s
  | TimerOp.stopOp => stop s

/-- Apply a sequence of `start()`/`stop()` calls in order. -/
def applyOps (s : Slider) (ops : List TimerOp) : Slider :=
  ops.foldl applyOp s

/-- Timer bookkeeping invariant of a `Slider` instance: every live timer it
created is the one recorded in `this.timer`, and at most one is live.  It
holds after construction and is preserved by every method. -/
def TimerInv (s : Slider) : Prop :=
  (∀ x ∈ s.live, s.timer = some x) ∧ s.live.length ≤ 1

instance (s : Slider) : Decidable (TimerInv s) := by
  unfold TimerInv; infer_instance

/-- The `click` handler attached by `pluginPrevious.action`:
`() => { slider.stop(); slider.slidesPrev(); slider.start(); e.preventDefault(); }`.
The three method calls run in order, but the arrow function declares no
parameter, so the trailing `e.preventDefault()` reads the unbound identifier
`e` and throws `ReferenceError: e is not defined`; `preventDefault` is never
reached, so the control's default activation is not suppressed.  The result
pairs the slider state as mutated before the throw with the outcome of the
handler body. -/
def pluginPrevious_action_click (slider : Slider) : Slider × Except String Unit :=
  let s1 := stop slider
  let s2 := slidesPrev s1
  let s3 := start s2
  (s3, Except.error "ReferenceError: e is not defined")

/-! Helper lemmas about the selected-flag list. -/

@[simp] theorem countSelected_nil : countSelected [] = 0 := rfl

@[simp] theorem countSelected_cons_true (l : List Bool) :
    countSelected (true :: l) = countSelected l + 1 := rfl

@[simp] theorem countSelected_cons_false (l : List Bool) :
    countSelected (false :: l) = countSelected l := rfl

@[simp] theorem querySelectorSelected_nil : querySelectorSelected [] = none := rfl

@[simp] theorem querySelectorSelected_cons_true (l : List Bool) :
    querySelectorSelected (true :: l) = some 0 := rfl

@[simp] theorem querySelectorSelected_cons_false (l : List Bool) :
    querySelectorSelected (false :: l) = (querySelectorSelected l).map (· + 1) := rfl

@[simp] theorem setClass_nil (i : Nat) (b : Bool) : setClass [] i b = [] := rfl

@[simp] theorem setClass_cons_zero (a : Bool) (l : List Bool) (b : Bool) :
    setClass (a :: l) 0 b = b :: l := rfl

@[simp] theorem setClass_cons_succ (a : Bool) (l : List Bool) (i : Nat) (b : Bool) :
    setClass (a :: l) (i + 1) b = a :: setClass l i b := rfl

theorem setClass_length (l : List Bool) (i : Nat) (b : Bool) :
    (setClass l i b).length = l.length := by
  induction l generalizing i with
  | nil => rfl
  | cons a t ih =>
    cases i with
    | zero => rfl
    | succ i => simp [ih]

theorem querySelectorSelected_eq_none (l : List Bool) (h : countSelected l = 0) :
    querySelectorSelected l = none := by
  induction l with
  | nil => rfl
  | cons b t ih =>
    cases b with
    | false =>
      simp only [countSelected_cons_false] at h
      simp [ih h]
    | true => simp at h

theorem exactlyOne_structure (l : List Bool) (h : countSelected l = 1) :
    ∃ j, querySelectorSelected l = some j ∧ j < l.length ∧
      countSelected (setClass l j false) = 0 := by
  induction l with
  | nil => simp at h
  | cons b t ih =>
    cases b with
    | true =>
      simp only [countSelected_cons_true] at h
      exact ⟨0, by simp, by simp, by simpa using h⟩
    | false =>
      simp only [countSelected_cons_false] at h
      obtain ⟨j, hq, hlt, hc⟩ := ih h
      exact ⟨j + 1, by simp [hq], by simpa using Nat.succ_lt_succ hlt, by simpa using hc⟩

theorem select_of_allFalse (l : List Bool) (j : Nat) (h : countSelected l = 0)
    (hj : j < l.length) :
    querySelectorSelected (setClass l j true) = some j ∧
      countSelected (setClass l j true) = 1 := by
  induction l generalizing j with
  | nil => simp at hj
  | cons b t ih =>
    have hb : b = false := by
      cases b with
      | false => rfl
      | true => simp at h
    subst hb
    simp only [countSelected_cons_false] at h
    cases j with
    | zero => simp [h]
    | succ j =>
      have hj' : j < t.length := by simpa using hj
      obtain ⟨ihq, ihc⟩ := ih j h hj'
      exact ⟨by simp [ihq], by simpa using ihc⟩

theorem query_some_set (l : List Bool) (j : Nat)
    (h : querySelectorSelected l = some j) :
    j < l.length ∧ setClass (setClass l j false) j true = l := by
  induction l generalizing j with
  | nil => simp at h
  | cons b t ih =>
    cases b with
    | true =>
      simp only [querySelectorSelected_cons_true, Option.some.injEq] at h
      subst h
      simp
    | false =>
      simp only [querySelectorSelected_cons_false] at h
      cases hq : querySelectorSelected t with
      | none => rw [hq] at h; simp at h
      | some j0 =>
        rw [hq] at h
        simp only [Option.map_some', Option.some.injEq] at h
        subst h
        obtain ⟨hlt, hset⟩ := ih j0 hq
        exact ⟨by simpa using Nat.succ_lt_succ hlt, by simp [hset]⟩

/-! Lemmas about the navigation operations. -/

theorem deselectCurrent_length (items : List Bool) :
    (deselectCurrent items).length = items.length := by
  unfold deselectCurrent
  cases hq : querySelectorSelected items with
  | none => rfl
  | some j => simp [setClass_length]

theorem selectTarget_length (items : List Bool) (idx : Int) :
    (selectTarget items idx).length = items.length := by
  unfold selectTarget
  split
  · simp [setClass_length]
  · rfl

theorem slidesTo_items_length (s : Slider) (idx : Int) :
    (slidesTo s idx).items.length = s.items.length := by
  show (selectTarget (deselectCurrent s.items) idx).length = s.items.length
  rw [selectTarget_length, deselectCurrent_length]

theorem slidesTo_events (s : Slider) (idx : Int) :
    (slidesTo s idx).events = s.events ++ [idx] := rfl

theorem deselectCurrent_of_none (items : List Bool) (h : countSelected items = 0) :
    deselectCurrent items = items := by
  unfold deselectCurrent
  rw [querySelectorSelected_eq_none items h]

theorem deselectCurrent_of_one (items : List Bool) (h : countSelected items = 1) :
    countSelected (deselectCurrent items) = 0 := by
  obtain ⟨j, hq, _, hc⟩ := exactlyOne_structure items h
  unfold deselectCurrent
  rw [hq]
  exact hc

theorem selectTarget_valid (items : List Bool) (idx : Int)
    (h : countSelected items = 0) (h0 : 0 ≤ idx) (hlt : idx < (items.length : Int)) :
    querySelectorSelected (selectTarget items idx) = some idx.toNat ∧
      countSelected (selectTarget items idx) = 1 := by
  have hnat : idx.toNat < items.length := by omega
  unfold selectTarget
  rw [if_pos ⟨h0, hlt⟩]
  exact select_of_allFalse items idx.toNat h hnat

theorem selectTarget_out_of_range (items : List Bool) (idx : Int)
    (h : idx < 0 ∨ (items.length : Int) ≤ idx) :
    selectTarget items idx = items := by
  unfold selectTarget
  rw [if_neg]
  omega

/-- On a state with exactly one selected slide, `slidesTo` with an in-range
target keeps exactly one slide selected and moves the selection to the
target. -/
theorem slidesTo_valid (s : Slider) (idx : Int) (h1 : countSelected s.items = 1)
    (h0 : 0 ≤ idx) (hlt : idx < (s.items.length : Int)) :
    countSelected (slidesTo s idx).items = 1 ∧
      getSelectedItemIndex (slidesTo s idx) = idx := by
  have hd0 : countSelected (deselectCurrent s.items) = 0 := deselectCurrent_of_one _ h1
  have hlen : ((deselectCurrent s.items).length : Int) = (s.items.length : Int) := by
    rw [deselectCurrent_length]
  obtain ⟨hq, hc⟩ := selectTarget_valid (deselectCurrent s.items) idx hd0 h0 (by omega)
  refine ⟨hc, ?_⟩
  show getSelectedItemIndex (slidesTo s idx) = idx
  unfold getSelectedItemIndex getSelectedItem
  show (match querySelectorSelected (selectTarget (deselectCurrent s.items) idx) with
    | none => (-1 : Int)
    | some j => (j : Int)) = idx
  rw [hq]
  simp
  omega

/-- On a state with no selected slide, `slidesTo` with an in-range target
selects exactly the target. -/
theorem slidesTo_noneSelected (s : Slider) (idx : Int) (h1 : countSelected s.items = 0)
    (h0 : 0 ≤ idx) (hlt : idx < (s.items.length : Int)) :
    countSelected (slidesTo s idx).items = 1 ∧
      getSelectedItemIndex (slidesTo s idx) = idx := by
  have hd : deselectCurrent s.items = s.items := deselectCurrent_of_none _ h1
  obtain ⟨hq, hc⟩ := selectTarget_valid s.items idx h1 h0 hlt
  refine ⟨by show countSelected (selectTarget (deselectCurrent s.items) idx) = 1; rw [hd]; exact hc, ?_⟩
  unfold getSelectedItemIndex getSelectedItem
  show (match querySelectorSelected (selectTarget (deselectCurrent s.items) idx) with
    | none => (-1 : Int)
    | some j => (j : Int)) = idx
  rw [hd, hq]
  simp
  omega

theorem getSelectedItemIndex_of_none (s : Slider) (h : countSelected s.items = 0) :
    getSelectedItem s = none ∧ getSelectedItemIndex s = -1 := by
  have hq : querySelectorSelected s.items = none := querySelectorSelected_eq_none _ h
  constructor
  · exact hq
  · unfold getSelectedItemIndex getSelectedItem
    rw [hq]

theorem getSelectedItemIndex_of_one (s : Slider) (h : countSelected s.items = 1) :
    ∃ j : Nat, querySelectorSelected s.items = some j ∧ j < s.items.length ∧
      getSelectedItemIndex s = (j : Int) := by
  obtain ⟨j, hq, hlt, _⟩ := exactlyOne_structure s.items h
  refine ⟨j, hq, hlt, ?_⟩
  unfold getSelectedItemIndex getSelectedItem
  rw [hq]

/-- JS `%` on two nonnegative integral Numbers agrees with `Nat.mod`. -/
theorem jsRem_coe_nat (m n : Nat) : jsRem (m : Int) (n : Int) = ((m % n : Nat) : Int) := rfl

/-- One `slidesNext()` on a state with exactly one selected slide: the
selection moves from `j` to `(j + 1) % N` and stays unique. -/
theorem slidesNext_step (s : Slider) (j : Nat) (h1 : countSelected s.items = 1)
    (hj : getSelectedItemIndex s = (j : Int)) :
    countSelected (slidesNext s).items = 1 ∧
      (slidesNext s).items.length = s.items.length ∧
      getSelectedItemIndex (slidesNext s) = (((j + 1) % s.items.length : Nat) : Int) := by
  obtain ⟨j0, hq0, hlt0, hidx0⟩ := getSelectedItemIndex_of_one s h1
  have hjj : j0 = j := by
    rw [hidx0] at hj
    exact_mod_cast hj
  subst hjj
  have hN : 0 < s.items.length := Nat.lt_of_le_of_lt (Nat.zero_le _) hlt0
  have harg : jsRem (getSelectedItemIndex s + 1) (s.items.length : Int)
      = (((j0 + 1) % s.items.length : Nat) : Int) := by
    rw [hidx0]
    have hcast : ((j0 : Int) + 1) = ((j0 + 1 : Nat) : Int) := by push_cast; ring
    rw [hcast, jsRem_coe_nat]
  have hmod : (j0 + 1) % s.items.length < s.items.length := Nat.mod_lt _ hN
  have hv := slidesTo_valid s (((j0 + 1) % s.items.length : Nat) : Int) h1
    (by exact_mod_cast Int.natCast_nonneg _) (by exact_mod_cast hmod)
  unfold slidesNext
  rw [harg]
  exact ⟨hv.1, slidesTo_items_length _ _, hv.2⟩

/-- One `slidesPrev()` on a state with exactly one selected slide: the
selection moves from `j` to `(N + j - 1) % N` and stays unique. -/
theorem slidesPrev_step (s : Slider) (j : Nat) (h1 : countSelected s.items = 1)
    (hj : getSelectedItemIndex s = (j : Int)) :
    countSelected (slidesPrev s).items = 1 ∧
      (slidesPrev s).items.length = s.items.length ∧
      getSelectedItemIndex (slidesPrev s) =
        (((s.items.length + j - 1) % s.items.length : Nat) : Int) := by
  obtain ⟨j0, hq0, hlt0, hidx0⟩ := getSelectedItemIndex_of_one s h1
  have hjj : j0 = j := by
    rw [hidx0] at hj
    exact_mod_cast hj
  subst hjj
  have hN : 0 < s.items.length := Nat.lt_of_le_of_lt (Nat.zero_le _) hlt0
  have harg : jsRem ((s.items.length : Int) + getSelectedItemIndex s - 1) (s.items.length : Int)
      = (((s.items.length + j0 - 1) % s.items.length : Nat) : Int) := by
    rw [hidx0]
    have hcast : ((s.items.length : Int) + (j0 : Int) - 1)
        = ((s.items.length + j0 - 1 : Nat) : Int) := by omega
    rw [hcast, jsRem_coe_nat]
  have hmod : (s.items.length + j0 - 1) % s.items.length < s.items.length := Nat.mod_lt _ hN
  have hv := slidesTo_valid s (((s.items.length + j0 - 1) % s.items.length : Nat) : Int) h1
    (by exact_mod_cast Int.natCast_nonneg _) (by exact_mod_cast hmod)
  unfold slidesPrev
  rw [harg]
  exact ⟨hv.1, slidesTo_items_length _ _, hv.2⟩

/-- Iterating `slidesNext()` `k` times advances the selection by `k` modulo
the slide count. -/
theorem slidesNext_iterate (s : Slider) (j : Nat) (k : Nat)
    (h1 : countSelected s.items = 1) (hj : getSelectedItemIndex s = (j : Int))
    (hlt : j < s.items.length) :
    countSelected (Nat.iterate slidesNext k s).items = 1 ∧
      (Nat.iterate slidesNext k s).items.length = s.items.length ∧
      getSelectedItemIndex (Nat.iterate slidesNext k s) =
        (((j + k) % s.items.length : Nat) : Int) := by
  induction k with
  | zero =>
    refine ⟨h1, rfl, ?_⟩
    rw [Nat.add_zero, Nat.mod_eq_of_lt hlt]
    exact hj
  | succ k ih =>
    obtain ⟨ih1, ihlen, ihidx⟩ := ih
    have hiter : Nat.iterate slidesNext (k + 1) s = slidesNext (Nat.iterate slidesNext k s) :=
      Function.iterate_succ_apply' slidesNext k s
    obtain ⟨hc, hlen, hidx⟩ :=
      slidesNext_step (Nat.iterate slidesNext k s) ((j + k) % s.items.length) ih1
        (by rw [ihidx])
    rw [ihlen] at hidx
    refine ⟨by rw [hiter]; exact hc, by rw [hiter, hlen, ihlen], ?_⟩
    rw [hiter, hidx, Nat.mod_add_mod, Nat.add_assoc]

/-- The `render()` template marks exactly the first image's item as
selected, so a freshly constructed slider with a nonempty image list has
exactly one selected slide. -/
theorem countSelected_enumFrom_map (l : List String) (n : Nat) (hn : 0 < n) :
    countSelected ((List.enumFrom n l).map (fun p => p.1 == 0)) = 0 := by
  induction l generalizing n with
  | nil => rfl
  | cons a t ih =>
    have hne : (n == 0) = false := by
      simp only [beq_eq_false_iff_ne, ne_eq]
      omega
    show countSelected ((n == 0) :: (List.enumFrom (n + 1) t).map (fun p => p.1 == 0)) = 0
    rw [hne, countSelected_cons_false]
    exact ih (n + 1) (Nat.succ_pos n)

theorem countSelected_render (images : List String) (h : images ≠ []) :
    countSelected (render images) = 1 := by
  cases images with
  | nil => exact absurd rfl h
  | cons img rest =>
    show countSelected (((img :: rest).enum).map (fun p => p.1 == 0)) = 1
    show countSelected ((0 == 0) :: (List.enumFrom 1 rest).map (fun p => p.1 == 0)) = 1
    rw [show ((0 : Nat) == 0) = true from rfl, countSelected_cons_true,
      countSelected_enumFrom_map rest 1 Nat.one_pos]

/-! Lemmas about the autoplay timer. -/

theorem stop_live_nil (s : Slider) (h : TimerInv s) : (stop s).live = [] := by
  obtain ⟨hall, hlen⟩ := h
  show clearInterval s.live s.timer = []
  cases ht : s.timer with
  | none =>
    show s.live = []
    cases hl : s.live with
    | nil => rfl
    | cons x xs =>
      exfalso
      have hx := hall x (by rw [hl]; exact List.mem_cons_self x xs)
      rw [ht] at hx
      cases hx
  | some t =>
    show s.live.filter (fun x => x != t) = []
    cases hl : s.live with
    | nil => rfl
    | cons x xs =>
      cases xs with
      | nil =>
        have hx := hall x (by rw [hl]; exact List.mem_cons_self x [])
        rw [ht] at hx
        have hxt : x = t := by
          injection hx with hh
          exact hh.symm
        subst hxt
        simp
      | cons y ys =>
        exfalso
        rw [hl] at hlen
        simp at hlen

theorem stop_timerInv (s : Slider) (h : TimerInv s) : TimerInv (stop s) := by
  have hnil := stop_live_nil s h
  constructor
  · intro x hx
    rw [hnil] at hx
    cases hx
  · rw [hnil]
    exact Nat.zero_le 1

theorem start_live (s : Slider) (h : TimerInv s) :
    (start s).live = [s.nextId] ∧ (start s).timer = some s.nextId := by
  have hnil := stop_live_nil s h
  constructor
  · show s.nextId :: (stop s).live = [s.nextId]
    rw [hnil]
  · rfl

theorem start_timerInv (s : Slider) (h : TimerInv s) :
    TimerInv (start s) ∧ (start s).live.length = 1 := by
  obtain ⟨hl, ht⟩ := start_live s h
  refine ⟨⟨?_, ?_⟩, ?_⟩
  · intro x hx
    rw [hl] at hx
    have hx0 : x = s.nextId := by
      cases hx with
      | head => rfl
      | tail _ hmem => cases hmem
    subst hx0
    exact ht
  · rw [hl]
    exact Nat.le_refl 1
  · rw [hl]
    rfl

theorem applyOps_timerInv (s : Slider) (ops : List TimerOp) (h : TimerInv s) :
    TimerInv (applyOps s ops) := by
  induction ops generalizing s with
  | nil => exact h
  | cons op rest ih =>
    show TimerInv (applyOps (applyOp s op) rest)
    apply ih
    cases op with
    | startOp => exact (start_timerInv s h).1
    | stopOp => exact stop_timerInv s h

/-! Claim theorems. -/

/-- Claim C1, counterexample: on a two-slide carousel with slide 0 selected,
`slidesTo(5)` (out of range) changes the selected index (0 becomes -1) and
dispatches a `slide` notification, and `slidesTo(0)` (the currently selected
index) also dispatches a notification — contradicting the claim that such
calls leave the index unchanged and fire no notification. -/
theorem claim_C1_counterexample :
    getSelectedItemIndex (slidesTo (mkSlider ["a", "b"]) 5) ≠
        getSelectedItemIndex (mkSlider ["a", "b"]) ∧
      (slidesTo (mkSlider ["a", "b"]) 5).events ≠ (mkSlider ["a", "b"]).events ∧
      (slidesTo (mkSlider ["a", "b"]) 0).events ≠ (mkSlider ["a", "b"]).events := by
  decide

/-- Claim C1, amended: in every state with at most one selected slide (all
reachable states), `slidesTo(index)` for `index` outside `[0, N)` deselects
the current slide so that the selected index becomes -1; `slidesTo` of the
currently selected index leaves the slide flags unchanged; and every
`slidesTo` call, no-op or not, dispatches exactly one `slide` notification
carrying the raw target index. -/
theorem claim_C1_slidesTo_out_of_range (s : Slider) (idx : Int)
    (hle : countSelected s.items ≤ 1) :
    ((idx < 0 ∨ (s.items.length : Int) ≤ idx) →
        getSelectedItemIndex (slidesTo s idx) = -1) ∧
      (getSelectedItemIndex s = idx → (slidesTo s idx).items = s.items) ∧
      (slidesTo s idx).events = s.events ++ [idx] := by
  refine ⟨?_, ?_, rfl⟩
  · intro hrange
    have hd0 : countSelected (deselectCurrent s.items) = 0 := by
      have h01 : countSelected s.items = 0 ∨ countSelected s.items = 1 := by omega
      rcases h01 with h0 | h1
      · rw [deselectCurrent_of_none s.items h0]
        exact h0
      · exact deselectCurrent_of_one s.items h1
    have hitems : (slidesTo s idx).items = deselectCurrent s.items := by
      show selectTarget (deselectCurrent s.items) idx = deselectCurrent s.items
      apply selectTarget_out_of_range
      rw [deselectCurrent_length]
      exact hrange
    have hzero : countSelected (slidesTo s idx).items = 0 := by
      rw [hitems]
      exact hd0
    exact (getSelectedItemIndex_of_none (slidesTo s idx) hzero).2
  · intro hsame
    cases hq : querySelectorSelected s.items with
    | none =>
      have hidx : getSelectedItemIndex s = -1 := by
        unfold getSelectedItemIndex getSelectedItem
        rw [hq]
      have hneg : idx = -1 := by rw [← hsame, hidx]
      have hd : deselectCurrent s.items = s.items := by
        unfold deselectCurrent
        rw [hq]
      show selectTarget (deselectCurrent s.items) idx = s.items
      rw [hd, hneg, selectTarget_out_of_range s.items (-1) (Or.inl (by norm_num))]
    | some j =>
      have hidx : getSelectedItemIndex s = (j : Int) := by
        unfold getSelectedItemIndex getSelectedItem
        rw [hq]
      have hj : idx = (j : Int) := by rw [← hsame, hidx]
      obtain ⟨hlt, hset⟩ := query_some_set s.items j hq
      have hd : deselectCurrent s.items = setClass s.items j false := by
        unfold deselectCurrent
        rw [hq]
      have hcond : 0 ≤ (j : Int) ∧ (j : Int) < ((setClass s.items j false).length : Int) := by
        refine ⟨Int.natCast_nonneg j, ?_⟩
        rw [setClass_length]
        exact_mod_cast hlt
      show selectTarget (deselectCurrent s.items) idx = s.items
      rw [hd, hj]
      unfold selectTarget
      rw [if_pos hcond]
      exact hset

/-- Claim C1, witness: the amended theorem evaluated on a concrete two-slide
carousel, at the out-of-range index 5 and at the already-selected index 0. -/
theorem claim_C1_witness :
    getSelectedItemIndex (slidesTo (mkSlider ["a", "b"]) 5) = -1 ∧
      (slidesTo (mkSlider ["a", "b"]) 0).items = (mkSlider ["a", "b"]).items ∧
      (slidesTo (mkSlider ["a", "b"]) 5).events = (mkSlider ["a", "b"]).events ++ [5] :=
  ⟨(claim_C1_slidesTo_out_of_range (mkSlider ["a", "b"]) 5 (by decide)).1
      (Or.inr (by decide)),
   (claim_C1_slidesTo_out_of_range (mkSlider ["a", "b"]) 0 (by decide)).2.1 (by decide),
   (claim_C1_slidesTo_out_of_range (mkSlider ["a", "b"]) 5 (by decide)).2.2⟩

/-- Claim C2, counterexample: the public operation `slidesTo` with an
out-of-range index does not preserve the exactly-one-selected invariant — on
a freshly constructed two-slide carousel (one slide selected) it leaves zero
slides selected. -/
theorem claim_C2_counterexample :
    countSelected (mkSlider ["a", "b"]).items = 1 ∧
      countSelected (slidesTo (mkSlider ["a", "b"]) 5).items = 0 := by
  decide

/-- Claim C2, amended: a freshly constructed nonempty carousel has exactly
one selected slide, and the invariant is preserved by `slidesTo` with an
in-range index, by `slidesPrev`, by `slidesNext`, and by the timer-driven
advance; only `slidesTo` with an out-of-range index violates it. -/
theorem claim_C2_exactlyOne_preserved (images : List String) (s : Slider)
    (himg : images ≠ []) (h1 : countSelected s.items = 1) :
    countSelected (mkSlider images).items = 1 ∧
      (∀ idx : Int, 0 ≤ idx → idx < (s.items.length : Int) →
        countSelected (slidesTo s idx).items = 1) ∧
      countSelected (slidesPrev s).items = 1 ∧
      countSelected (slidesNext s).items = 1 ∧
      countSelected (tick s).items = 1 := by
  obtain ⟨j, hq, hlt, hidx⟩ := getSelectedItemIndex_of_one s h1
  exact ⟨countSelected_render images himg,
    fun idx h0 hl => (slidesTo_valid s idx h1 h0 hl).1,
    (slidesPrev_step s j h1 hidx).1,
    (slidesNext_step s j h1 hidx).1,
    (slidesNext_step s j h1 hidx).1⟩

/-- Claim C2, witness: the amended theorem evaluated on concrete carousels. -/
theorem claim_C2_witness :
    countSelected (mkSlider ["a"]).items = 1 ∧
      countSelected (slidesPrev (mkSlider ["a", "b"])).items = 1 ∧
      countSelected (slidesNext (mkSlider ["a", "b"])).items = 1 :=
  ⟨(claim_C2_exactlyOne_preserved ["a"] (mkSlider ["a", "b"]) (by decide) (by decide)).1,
   (claim_C2_exactlyOne_preserved ["a"] (mkSlider ["a", "b"]) (by decide) (by decide)).2.2.1,
   (claim_C2_exactlyOne_preserved ["a"] (mkSlider ["a", "b"]) (by decide) (by decide)).2.2.2.1⟩

/-- Claim C3, counterexample: on the empty carousel `getSelectedItemIndex()`
does not fail — there is no `EmptyCarouselError` anywhere in the code — it
returns the plain value -1, which is not in `[0, 0)`. -/
theorem claim_C3_counterexample :
    getSelectedItemIndex (mkSlider []) = -1 ∧
      ¬ 0 ≤ getSelectedItemIndex (mkSlider []) := by
  decide

/-- Claim C3, amended: `getSelectedItemIndex()` returns an integer in
`[0, N)` whenever exactly one slide is selected; when the carousel is empty
or no slide is selected it returns -1 (raising no error — the code has no
`EmptyCarouselError`). -/
theorem claim_C3_getSelectedItemIndex_range (s : Slider) :
    (countSelected s.items = 1 →
        0 ≤ getSelectedItemIndex s ∧ getSelectedItemIndex s < (s.items.length : Int)) ∧
      (countSelected s.items = 0 → getSelectedItemIndex s = -1) := by
  constructor
  · intro h1
    obtain ⟨j, _, hlt, hidx⟩ := getSelectedItemIndex_of_one s h1
    rw [hidx]
    exact ⟨Int.natCast_nonneg j, by exact_mod_cast hlt⟩
  · intro h0
    exact (getSelectedItemIndex_of_none s h0).2

/-- Claim C3, witness: the amended theorem evaluated on a two-slide carousel
and on the empty carousel. -/
theorem claim_C3_witness :
    (0 ≤ getSelectedItemIndex (mkSlider ["a", "b"]) ∧
        getSelectedItemIndex (mkSlider ["a", "b"]) <
          ((mkSlider ["a", "b"]).items.length : Int)) ∧
      getSelectedItemIndex (mkSlider []) = -1 :=
  ⟨(claim_C3_getSelectedItemIndex_range (mkSlider ["a", "b"])).1 (by decide),
   (claim_C3_getSelectedItemIndex_range (mkSlider [])).2 (by decide)⟩

/-- Claim C4: evaluating the `pluginPrevious` click handler on a concrete
four-slide carousel shows the divergence: `stop()`, `slidesPrev()` and
`start()` all take effect (the selection moves from 0 to 3 and exactly one
timer is live), but the handler then throws
`ReferenceError: e is not defined` instead of calling `preventDefault`, so
the fourth step — suppressing the default activation — never happens and the
handler does not complete without error. -/
theorem claim_C4_previous_click_throws :
    (pluginPrevious_action_click (mkSlider ["a", "b", "c", "d"])).2 =
        Except.error "ReferenceError: e is not defined" ∧
      (pluginPrevious_action_click (mkSlider ["a", "b", "c", "d"])).1 =
        start (slidesPrev (stop (mkSlider ["a", "b", "c", "d"]))) ∧
      getSelectedItemIndex (pluginPrevious_action_click (mkSlider ["a", "b", "c", "d"])).1 = 3 ∧
      (pluginPrevious_action_click (mkSlider ["a", "b", "c", "d"])).1.live.length = 1 := by
  exact ⟨rfl, rfl, by decide, rfl⟩

/-- Claim C5: from any state with exactly one selected slide (index `i`),
applying `slidesNext()` exactly N times (N = slide count) returns the
selected index to `i` — cycle closure. -/
theorem claim_C5_cycle_closure (s : Slider) (i : Int)
    (h1 : countSelected s.items = 1) (h2 : getSelectedItemIndex s = i) :
    getSelectedItemIndex (Nat.iterate slidesNext s.items.length s) = i := by
  obtain ⟨j, hq, hlt, hidx⟩ := getSelectedItemIndex_of_one s h1
  obtain ⟨_, _, hiter⟩ := slidesNext_iterate s j s.items.length h1 hidx hlt
  rw [hiter, Nat.add_mod_right, Nat.mod_eq_of_lt hlt, ← hidx, h2]

/-- Claim C5, witness: on a three-slide carousel starting at index 0, three
`slidesNext()` calls return the selection to index 0. -/
theorem claim_C5_witness :
    getSelectedItemIndex
      (Nat.iterate slidesNext (mkSlider ["a", "b", "c"]).items.length
        (mkSlider ["a", "b", "c"])) = 0 :=
  claim_C5_cycle_closure (mkSlider ["a", "b", "c"]) 0 (by decide) (by decide)

/-- Claim C6: from any state with exactly one selected slide, `slidesPrev()`
followed by `slidesNext()` — and symmetrically `slidesNext()` followed by
`slidesPrev()` — restores the original selected index. -/
theorem claim_C6_prev_next_inverse (s : Slider) (h1 : countSelected s.items = 1) :
    getSelectedItemIndex (slidesNext (slidesPrev s)) = getSelectedItemIndex s ∧
      getSelectedItemIndex (slidesPrev (slidesNext s)) = getSelectedItemIndex s := by
  obtain ⟨j, hq, hlt, hidx⟩ := getSelectedItemIndex_of_one s h1
  have hN : 0 < s.items.length := Nat.lt_of_le_of_lt (Nat.zero_le _) hlt
  constructor
  · obtain ⟨hp1, hplen, hpidx⟩ := slidesPrev_step s j h1 hidx
    obtain ⟨_, _, hnidx⟩ :=
      slidesNext_step (slidesPrev s) ((s.items.length + j - 1) % s.items.length) hp1
        (by rw [hpidx])
    rw [hnidx, hplen]
    have hmod : ((s.items.length + j - 1) % s.items.length + 1) % s.items.length = j := by
      have h1p : s.items.length + j - 1 + 1 = s.items.length + j := by omega
      rw [Nat.mod_add_mod, h1p, Nat.add_mod_left, Nat.mod_eq_of_lt hlt]
    rw [hmod, hidx]
  · obtain ⟨hn1, hnlen, hnidx⟩ := slidesNext_step s j h1 hidx
    obtain ⟨_, _, hpidx⟩ :=
      slidesPrev_step (slidesNext s) ((j + 1) % s.items.length) hn1 (by rw [hnidx])
    rw [hpidx, hnlen]
    have hmod : (s.items.length + (j + 1) % s.items.length - 1) % s.items.length = j := by
      rcases Nat.lt_or_ge (j + 1) s.items.length with hc | hc
      · rw [Nat.mod_eq_of_lt hc]
        have h1p : s.items.length + (j + 1) - 1 = s.items.length + j := by omega
        rw [h1p, Nat.add_mod_left, Nat.mod_eq_of_lt hlt]
      · have hje : j + 1 = s.items.length := by omega
        rw [hje, Nat.mod_self]
        have h1p : s.items.length + 0 - 1 = s.items.length - 1 := by omega
        rw [h1p, Nat.mod_eq_of_lt (by omega)]
        omega
    rw [hmod, hidx]

/-- Claim C6, witness: the inverse laws evaluated on a three-slide
carousel. -/
theorem claim_C6_witness :
    getSelectedItemIndex (slidesNext (slidesPrev (mkSlider ["a", "b", "c"]))) =
        getSelectedItemIndex (mkSlider ["a", "b", "c"]) ∧
      getSelectedItemIndex (slidesPrev (slidesNext (mkSlider ["a", "b", "c"]))) =
        getSelectedItemIndex (mkSlider ["a", "b", "c"]) :=
  claim_C6_prev_next_inverse (mkSlider ["a", "b", "c"]) (by decide)

/-- Claim C7: with exactly one selected slide at index `i`, `slidesPrev()`
is exactly `slidesTo((i - 1 + N) mod N)`, and the `+N`-biased operand makes
the computed target nonnegative and in `[0, N)` even though JS `%` truncates
toward zero. -/
theorem claim_C7_prev_equiv_goTo (s : Slider) (i : Int)
    (h1 : countSelected s.items = 1) (h2 : getSelectedItemIndex s = i) :
    slidesPrev s =
        slidesTo s (jsRem (i - 1 + (s.items.length : Int)) (s.items.length : Int)) ∧
      0 ≤ jsRem (i - 1 + (s.items.length : Int)) (s.items.length : Int) ∧
      jsRem (i - 1 + (s.items.length : Int)) (s.items.length : Int) <
        (s.items.length : Int) := by
  obtain ⟨j, hq, hlt, hidx⟩ := getSelectedItemIndex_of_one s h1
  have hN : 0 < s.items.length := Nat.lt_of_le_of_lt (Nat.zero_le _) hlt
  have hi : i = (j : Int) := by rw [← h2, hidx]
  subst hi
  have hcast : ((j : Int) - 1 + (s.items.length : Int))
      = ((s.items.length + j - 1 : Nat) : Int) := by omega
  have hrem : jsRem ((j : Int) - 1 + (s.items.length : Int)) (s.items.length : Int)
      = (((s.items.length + j - 1) % s.items.length : Nat) : Int) := by
    rw [hcast, jsRem_coe_nat]
  refine ⟨?_, ?_, ?_⟩
  · show slidesTo s (jsRem ((s.items.length : Int) + getSelectedItemIndex s - 1)
      (s.items.length : Int)) = _
    rw [hidx]
    congr 2
    omega
  · rw [hrem]
    exact Int.natCast_nonneg _
  · rw [hrem]
    exact_mod_cast Nat.mod_lt _ hN

/-- Claim C7, witness: the equivalence and range facts evaluated on a
three-slide carousel at selected index 0. -/
theorem claim_C7_witness :
    slidesPrev (mkSlider ["a", "b", "c"]) =
        slidesTo (mkSlider ["a", "b", "c"])
          (jsRem ((0 : Int) - 1 + ((mkSlider ["a", "b", "c"]).items.length : Int))
            (((mkSlider ["a", "b", "c"]).items.length : Int))) ∧
      0 ≤ jsRem ((0 : Int) - 1 + ((mkSlider ["a", "b", "c"]).items.length : Int))
          (((mkSlider ["a", "b", "c"]).items.length : Int)) ∧
      jsRem ((0 : Int) - 1 + ((mkSlider ["a", "b", "c"]).items.length : Int))
          (((mkSlider ["a", "b", "c"]).items.length : Int)) <
        ((mkSlider ["a", "b", "c"]).items.length : Int) :=
  claim_C7_prev_equiv_goTo (mkSlider ["a", "b", "c"]) 0 (by decide) (by decide)

/-- Claim C8: in every state satisfying the timer bookkeeping invariant (all
reachable states of an instance), `start()` yields exactly one live timer,
calling it twice in succession still yields exactly one live timer, and every
sequence of `start()`/`stop()` calls preserves the invariant, so at most one
timer is ever live. -/
theorem claim_C8_start_idempotent (s : Slider) (h : TimerInv s) :
    (start s).live.length = 1 ∧
      (start (start s)).live.length = 1 ∧
      ∀ ops : List TimerOp,
        TimerInv (applyOps s ops) ∧ (applyOps s ops).live.length ≤ 1 := by
  refine ⟨(start_timerInv s h).2, (start_timerInv (start s) (start_timerInv s h).1).2,
    fun ops => ?_⟩
  have hinv := applyOps_timerInv s ops h
  exact ⟨hinv, hinv.2⟩

/-- Claim C8, witness: the timer facts evaluated on a freshly constructed
carousel, including a concrete `start; start; stop; start` sequence. -/
theorem claim_C8_witness :
    (start (mkSlider ["a", "b"])).live.length = 1 ∧
      (start (start (mkSlider ["a", "b"]))).live.length = 1 ∧
      (applyOps (mkSlider ["a", "b"])
          [TimerOp.startOp, TimerOp.startOp, TimerOp.stopOp, TimerOp.startOp]).live.length ≤ 1 :=
  ⟨(claim_C8_start_idempotent (mkSlider ["a", "b"]) (by decide)).1,
   (claim_C8_start_idempotent (mkSlider ["a", "b"]) (by decide)).2.1,
   ((claim_C8_start_idempotent (mkSlider ["a", "b"]) (by decide)).2.2
      [TimerOp.startOp, TimerOp.startOp, TimerOp.stopOp, TimerOp.startOp]).2⟩

/-- Claim C9: whenever no slide is selected — the image list is empty, or an
out-of-range navigation deselected the previous slide — `getSelectedItem()`
returns `null` and `getSelectedItemIndex()` returns -1, and neither raises an
error (both are total). -/
theorem claim_C9_no_selection (s : Slider) (h : countSelected s.items = 0) :
    getSelectedItem s = none ∧ getSelectedItemIndex s = -1 :=
  getSelectedItemIndex_of_none s h

/-- Claim C9, witness: evaluated on the empty carousel and on a two-slide
carousel whose selection was cleared by the out-of-range call
`slidesTo(5)`. -/
theorem claim_C9_witness :
    (getSelectedItem (mkSlider []) = none ∧ getSelectedItemIndex (mkSlider []) = -1) ∧
      (getSelectedItem (slidesTo (mkSlider ["a", "b"]) 5) = none ∧
        getSelectedItemIndex (slidesTo (mkSlider ["a", "b"]) 5) = -1) :=
  ⟨claim_C9_no_selection (mkSlider []) (by decide),
   claim_C9_no_selection (slidesTo (mkSlider ["a", "b"]) 5) (by decide)⟩

/-- Claim C10: on a nonempty carousel with no selected slide,
`slidesNext()` computes `(-1 + 1) % N = 0` from the sentinel index -1 and
selects the slide at index 0. -/
theorem claim_C10_next_from_unselected (s : Slider)
    (h0 : 0 < s.items.length) (h : countSelected s.items = 0) :
    getSelectedItemIndex (slidesNext s) = 0 ∧
      countSelected (slidesNext s).items = 1 := by
  have hidx : getSelectedItemIndex s = -1 := (getSelectedItemIndex_of_none s h).2
  have harg : jsRem (getSelectedItemIndex s + 1) (s.items.length : Int) = 0 := by
    rw [hidx]
    have hzero : (-1 : Int) + 1 = ((0 : Nat) : Int) := by norm_num
    rw [hzero, jsRem_coe_nat]
    simp
  obtain ⟨hc, hsel⟩ := slidesTo_noneSelected s 0 h (le_refl 0) (by exact_mod_cast h0)
  unfold slidesNext
  rw [harg]
  exact ⟨hsel, hc⟩

/-- Claim C10, witness: on a two-slide carousel deselected by the
out-of-range call `slidesTo(5)`, `slidesNext()` selects index 0. -/
theorem claim_C10_witness :
    getSelectedItemIndex (slidesNext (slidesTo (mkSlider ["a", "b"]) 5)) = 0 ∧
      countSelected (slidesNext (slidesTo (mkSlider ["a", "b"]) 5)).items = 1 :=
  claim_C10_next_from_unselected (slidesTo (mkSlider ["a", "b"]) 5) (by decide) (by decide)

end MySlider
